import Mathlib

/-!
# Verification of the Dumroo admin panel core pipeline

Shallow embedding of `dumroo_admin_panel.py`: the role-scope registry
(`admin_scopes`), the access guard (`check_access`), the extractor-response
cleaning and JSON parsing done inside `process_query`, and the dataset
filtering / branching logic (the query resolver).

Modelling conventions:
* Python/JSON values flowing out of `json.loads` are modelled by `Json`
  (numeric literals are modelled as integers; the reference dataset and all
  intents in this development only involve integers, strings and null).
* `datetime` timestamps are modelled as `Int` microseconds since the epoch
  2025-07-01T00:00:00 (`usPerDay` microseconds per day).  Stored
  `quiz_date` / `upcoming_quiz` values are midnights; `datetime.now()` is an
  arbitrary instant `now`.
* Python exceptions raised inside the `try:` block of `process_query`
  (AttributeError from `.isdigit()` / `.get`, KeyError) are modelled with
  `Except String`, the error message being Python's `str(e)`.
-/

set_option maxHeartbeats 1000000

/-- The character U+007B, written by code so that no brace appears in a
string literal. -/
def lbrace : Char := Char.ofNat 123

/-- The character U+007D. -/
def rbrace : Char := Char.ofNat 125

/-- JSON values as produced by `json.loads` (numbers restricted to the
integers, which covers every literal this program ever manipulates). -/
inductive Json where
  | null
  | bool (b : Bool)
  | num (n : Int)
  | str (s : String)
  | arr (elems : List Json)
  | obj (fields : List (String × Json))

/-- Microseconds per day (`timedelta(days=1)` at `datetime` resolution). -/
def usPerDay : Int := 86400000000

/-- Midnight of 2025-07-`n`, in microseconds since 2025-07-01T00:00:00. -/
def july (n : Int) : Int := (n - 1) * usPerDay

/-- One row of the pandas frame built by `load_data`. -/
structure StudentRecord where
  student_name : String
  grade : Int
  «class» : String
  region : String
  homework_submitted : Bool
  quiz_score : Int
  quiz_date : Int
  upcoming_quiz : Int
deriving DecidableEq

/-- The sample dataset of `load_data` (its two date columns converted by
`pd.to_datetime` to midnight timestamps). -/
def load_data : List StudentRecord :=
  [ ⟨"Alice Smith",   8, "A", "North", true,  85, july 10, july 20⟩,
    ⟨"Bob Johnson",   8, "A", "North", false, 0,  july 10, july 20⟩,
    ⟨"Charlie Brown", 9, "B", "South", true,  90, july 17, july 21⟩,
    ⟨"Diana Wilson",  9, "B", "South", false, 0,  july 17, july 21⟩,
    ⟨"Eve Davis",     8, "A", "North", false, 75, july 15, july 22⟩,
    ⟨"Frank Miller",  9, "B", "South", true,  88, july 16, july 23⟩,
    ⟨"Grace Lee",     8, "A", "North", true,  92, july 12, july 24⟩,
    ⟨"Hank Taylor",   9, "B", "South", false, 0,  july 14, july 25⟩ ]

/-- A role's scope triple, one entry of the `admin_scopes` dict. -/
structure Scope where
  grade : Int
  «class» : String
  region : String
deriving DecidableEq

/-- The `admin_scopes` dict: role-based access control registry. -/
def admin_scopes (role : String) : Option Scope :=
  if role = "grade_8_admin" then some ⟨8, "A", "North"⟩
  else if role = "grade_9_admin" then some ⟨9, "B", "South"⟩
  else none

/-! ## Python primitives used by the pipeline -/

/-- Python `str.isdigit()` restricted to ASCII digits: nonempty and all
characters are digits. -/
def py_isdigit (s : String) : Bool := !s.data.isEmpty && s.data.all Char.isDigit

/-- Python `int(s)` for an all-digit string. -/
def py_int (s : String) : Int :=
  (s.data.foldl (fun n c => 10 * n + (c.toNat - 48)) 0 : Nat)

/-- Python's type names, as they appear in `AttributeError` messages. -/
def pyTypeName : Json → String
  | .null => "NoneType"
  | .bool _ => "bool"
  | .num _ => "int"
  | .str _ => "str"
  | .arr _ => "list"
  | .obj _ => "dict"

/-- Python `==` between an arbitrary JSON-derived value and a `str`:
equality holds only when the value is the same string (Python equality
across distinct types is `False`, never an exception). -/
def pyEqStr (v : Json) (s : String) : Bool :=
  match v with
  | .str t => t == s
  | _ => false

/-- Python `==` between `dict.get`'s result (`None` for an absent key) and a
`str`: `None == s` is `False`. -/
def pyEqStrOpt (v : Option Json) (s : String) : Bool :=
  match v with
  | some j => pyEqStr j s
  | none => false

/-- `parsed_data.get(k)` on the dict produced by `json.loads`: duplicate
keys keep the last occurrence; both an absent key and a JSON `null` value
surface as Python `None`, modelled as `none`. -/
def dict_get (fields : List (String × Json)) (k : String) : Option Json :=
  match fields.reverse.find? (fun p => p.1 == k) with
  | some (_, Json.null) => none
  | some (_, v) => some v
  | none => none

/-! ## Extractor-response cleaning (`process_query`, lines 145-152) -/

/-- Python whitespace stripped by `str.strip()`. -/
def isPyWs (c : Char) : Bool :=
  c = ' ' || c = '\t' || c = '\n' || c = '\r' || c = Char.ofNat 11 || c = Char.ofNat 12

/-- Python `str.strip()`. -/
def pyStrip (s : String) : String :=
  String.mk (((s.data.dropWhile isPyWs).reverse.dropWhile isPyWs).reverse)

/-- Python `str.replace("undefined", "")`: left-to-right, non-overlapping
removal of every occurrence. -/
def replaceUndefined : List Char → List Char
  | 'u' :: 'n' :: 'd' :: 'e' :: 'f' :: 'i' :: 'n' :: 'e' :: 'd' :: rest =>
      replaceUndefined rest
  | c :: rest => c :: replaceUndefined rest
  | [] => []

/-- `re.search(r"\x7b.*\x7d", parsed, re.DOTALL)`: with a greedy `.*` under
DOTALL this matches from the first opening brace to the last closing brace,
provided some closing brace follows the first opening one. -/
def braceSpan (s : String) : Option String :=
  let cs := s.data
  match cs.findIdx? (fun c => c = lbrace) with
  | none => none
  | some i =>
      match cs.reverse.findIdx? (fun c => c = rbrace) with
      | none => none
      | some k =>
          let j := cs.length - 1 - k
          if i < j then some (String.mk ((cs.drop i).take (j - i + 1))) else none

/-- Lines 145-151 of `process_query`: keep the brace span when one exists,
otherwise strip the response and delete the literal token `undefined`. -/
def clean_response (raw : String) : String :=
  match braceSpan raw with
  | some g => g
  | none => String.mk (replaceUndefined (pyStrip raw).data)

/-! ## A JSON parser modelling `json.loads`

Fuel-based recursive descent over the character list.  `mode 0` parses one
value, `mode 1` the tail of an array (after `[`), `mode 2` the members of an
object (after the opening brace).  The subset parsed — null, booleans,
integers, strings with escapes, arrays, objects — covers every response the
program's prompt solicits; floating-point literals are out of the model. -/

/-- JSON insignificant whitespace. -/
def skipWs : List Char → List Char
  | c :: cs => if c = ' ' || c = '\t' || c = '\n' || c = '\r' then skipWs cs else c :: cs
  | [] => []

/-- Value of a hexadecimal digit. -/
def hexDigit (c : Char) : Option Nat :=
  if '0' ≤ c ∧ c ≤ '9' then some (c.toNat - 48)
  else if 'a' ≤ c ∧ c ≤ 'f' then some (c.toNat - 87)
  else if 'A' ≤ c ∧ c ≤ 'F' then some (c.toNat - 55)
  else none

/-- Body of a JSON string (opening quote already consumed), with the
standard escapes. -/
def parseStringBody (fuel : Nat) (acc : List Char) (cs : List Char) :
    Option (String × List Char) :=
  match fuel, cs with
  | 0, _ => none
  | _ + 1, [] => none
  | fuel + 1, c :: cs =>
      if c = '"' then some (String.mk acc.reverse, cs)
      else if c = '\\' then
        match cs with
        | [] => none
        | e :: cs' =>
            if e = '"' then parseStringBody fuel ('"' :: acc) cs'
            else if e = '\\' then parseStringBody fuel ('\\' :: acc) cs'
            else if e = '/' then parseStringBody fuel ('/' :: acc) cs'
            else if e = 'n' then parseStringBody fuel ('\n' :: acc) cs'
            else if e = 't' then parseStringBody fuel ('\t' :: acc) cs'
            else if e = 'r' then parseStringBody fuel ('\r' :: acc) cs'
            else if e = 'b' then parseStringBody fuel (Char.ofNat 8 :: acc) cs'
            else if e = 'f' then parseStringBody fuel (Char.ofNat 12 :: acc) cs'
            else if e = 'u' then
              match cs' with
              | h1 :: h2 :: h3 :: h4 :: cs'' =>
                  match hexDigit h1, hexDigit h2, hexDigit h3, hexDigit h4 with
                  | some a, some b, some c2, some d =>
                      parseStringBody fuel
                        (Char.ofNat (((a * 16 + b) * 16 + c2) * 16 + d) :: acc) cs''
                  | _, _, _, _ => none
              | _ => none
            else none
      else parseStringBody fuel (c :: acc) cs

/-- Numeric value of a digit list. -/
def digitsVal (ds : List Char) : Nat :=
  ds.foldl (fun n c => 10 * n + (c.toNat - 48)) 0

/-- An integer literal (optional leading minus). -/
def parseIntTok (cs : List Char) : Option (Json × List Char) :=
  match cs with
  | '-' :: rest =>
      let ds := rest.takeWhile Char.isDigit
      if ds.isEmpty then none
      else some (.num (-(digitsVal ds : Int)), rest.dropWhile Char.isDigit)
  | _ =>
      let ds := cs.takeWhile Char.isDigit
      if ds.isEmpty then none
      else some (.num ((digitsVal ds : Int)), cs.dropWhile Char.isDigit)

/-- The recursive-descent core of the `json.loads` model.  `mode = 0`
parses a value; `mode = 1` parses array elements and returns them wrapped
in `Json.arr`; `mode = 2` parses object members and returns them wrapped in
`Json.obj`. -/
def parseP (fuel : Nat) (mode : Nat) (cs : List Char) : Option (Json × List Char) :=
  match fuel with
  | 0 => none
  | fuel + 1 =>
      if mode = 1 then
        match parseP fuel 0 cs with
        | none => none
        | some (j, r) =>
            match skipWs r with
            | ',' :: r' =>
                match parseP fuel 1 r' with
                | some (.arr es, r'') => some (.arr (j :: es), r'')
                | _ => none
            | ']' :: r' => some (.arr [j], r')
            | _ => none
      else if mode = 2 then
        match skipWs cs with
        | '"' :: r =>
            match parseStringBody (r.length + 1) [] r with
            | none => none
            | some (k, r1) =>
                match skipWs r1 with
                | ':' :: r2 =>
                    match parseP fuel 0 r2 with
                    | none => none
                    | some (v, r3) =>
                        match skipWs r3 with
                        | ',' :: r4 =>
                            match parseP fuel 2 r4 with
                            | some (.obj fs, r5) => some (.obj ((k, v) :: fs), r5)
                            | _ => none
                        | d :: r4 =>
                            if d = rbrace then some (.obj [(k, v)], r4) else none
                        | [] => none
                | _ => none
        | _ => none
      else
        match skipWs cs with
        | [] => none
        | c :: rest =>
            if c = 'n' then
              match rest with
              | 'u' :: 'l' :: 'l' :: r => some (.null, r)
              | _ => none
            else if c = 't' then
              match rest with
              | 'r' :: 'u' :: 'e' :: r => some (.bool true, r)
              | _ => none
            else if c = 'f' then
              match rest with
              | 'a' :: 'l' :: 's' :: 'e' :: r => some (.bool false, r)
              | _ => none
            else if c = '"' then
              match parseStringBody (rest.length + 1) [] rest with
              | some (s, r) => some (.str s, r)
              | none => none
            else if c = '[' then
              match skipWs rest with
              | ']' :: r => some (.arr [], r)
              | _ => parseP fuel 1 rest
            else if c = lbrace then
              match skipWs rest with
              | d :: r' =>
                  if d = rbrace then some (.obj [], r')
                  else parseP fuel 2 rest
              | [] => none
            else parseIntTok (c :: rest)

/-- `json.loads`: parse one value and require only whitespace to remain. -/
def json_loads (s : String) : Option Json :=
  match parseP (s.data.length + 1) 0 s.data with
  | some (j, rest) => if (skipWs rest).isEmpty then some j else none
  | none => none

/-! ## Access Guard (`check_access`, lines 99-111) -/

/-- Line 104 of `check_access` (recomputed verbatim at line 166):
`int(query_grade) if query_grade is not None and query_grade.isdigit()
else scope["grade"]`.  A present non-string raises
`AttributeError: '<type>' object has no attribute 'isdigit'`. -/
def effective_grade_of (scope : Scope) (query_grade : Option Json) : Except String Int :=
  match query_grade with
  | none => .ok scope.grade
  | some (.str s) => .ok (if py_isdigit s then py_int s else scope.grade)
  | some v => .error ("\x27" ++ pyTypeName v ++ "\x27 object has no attribute \x27isdigit\x27")

/-- `check_access(admin_role, query_grade, query_class, query_region)`:
look up the role's scope (absent role denies), default each absent field to
the role's own scope value, then require all three effective fields to
equal the scope. -/
def check_access (admin_role : String)
    (query_grade query_class query_region : Option Json) : Except String Bool :=
  match admin_scopes admin_role with
  | none => .ok false
  | some scope =>
      match effective_grade_of scope query_grade with
      | .error e => .error e
      | .ok effective_grade =>
          let effective_class :=
            match query_class with
            | none => Json.str scope.«class»
            | some v => v
          let effective_region :=
            match query_region with
            | none => Json.str scope.region
            | some v => v
          .ok (effective_grade == scope.grade
            && pyEqStr effective_class scope.«class»
            && pyEqStr effective_region scope.region)

/-! ## Query Resolver (`process_query`, lines 163-192) -/

/-- Outcomes of one query, one constructor per distinct shape the code
returns: the three projected tables, informational messages, the
`json.JSONDecodeError` handler's frame (rendered as
`Invalid JSON response from AI. Raw response: <cleaned>`), and the generic
`except Exception` handler's frame (rendered as
`Error processing query: <str(e)>`). -/
inductive QueryResult where
  | message (m : String)
  | invalidJson (cleaned : String)
  | processingError (e : String)
  | namesTable (rows : List String)
  | perfTable (rows : List (String × Int))
  | quizTable (rows : List (String × Int))
deriving DecidableEq

/-- Lines 171-192: branch on `data_type` over the already-filtered frame.
`performance` and `quizzes` with the wrong `time_period` fall through to
line 192's `Unable to process query`. -/
def branch_result (filtered_df : List StudentRecord)
    (data_type time_period : Option Json) (now : Int) : QueryResult :=
  if pyEqStrOpt data_type "homework" then
    let result := (filtered_df.filter (fun r => r.homework_submitted == false)).map
      (fun r => r.student_name)
    if !result.isEmpty then .namesTable result
    else .message "All homework submitted"
  else if pyEqStrOpt data_type "performance" then
    if pyEqStrOpt time_period "last week" then
      let last_week_start := now - 7 * usPerDay
      let last_week_end := now - 1 * usPerDay
      let result := (filtered_df.filter (fun r =>
          decide (last_week_start ≤ r.quiz_date) && decide (r.quiz_date ≤ last_week_end))).map
        (fun r => (r.student_name, r.quiz_score))
      if !result.isEmpty then .perfTable result
      else .message "No performance data for last week"
    else .message "Unable to process query"
  else if pyEqStrOpt data_type "quizzes" then
    if pyEqStrOpt time_period "next week" then
      let next_week_start := now + 1 * usPerDay
      let next_week_end := now + 7 * usPerDay
      let result := (filtered_df.filter (fun r =>
          decide (next_week_start ≤ r.upcoming_quiz) && decide (r.upcoming_quiz ≤ next_week_end))).map
        (fun r => (r.student_name, r.upcoming_quiz))
      if !result.isEmpty then .quizTable result
      else .message "No quizzes scheduled for next week"
    else .message "Unable to process query"
  else .message "Unable to process query"

/-- Lines 163-192: recompute the effective grade/class/region exactly as in
`check_access`, filter the dataset to rows matching them, then branch.  The
`Except` layer carries the `AttributeError` line 166 can raise (unreachable
when access was granted). -/
def resolve (df : List StudentRecord) (scope : Scope)
    (query_grade query_class query_region data_type time_period : Option Json)
    (now : Int) : Except String QueryResult :=
  match effective_grade_of scope query_grade with
  | .error e => .error e
  | .ok g =>
      let effective_class :=
        match query_class with
        | none => Json.str scope.«class»
        | some v => v
      let effective_region :=
        match query_region with
        | none => Json.str scope.region
        | some v => v
      let filtered_df := df.filter (fun r =>
        r.grade == g && pyEqStr effective_class r.«class» && pyEqStr effective_region r.region)
      .ok (branch_result filtered_df data_type time_period now)

/-! ## The pipeline (`process_query`, lines 140-197)

The external LLM call is opaque: `rawResponse` is the text `chain.invoke`
returned, and `now` the instant `datetime.now()` observes. -/

/-- `process_query`: clean the response, parse it as JSON, read the five
intent fields, run the access guard, and resolve.  Each `except` clause of
the source is one constructor of `QueryResult`. -/
def process_query (rawResponse admin_role : String) (now : Int) : QueryResult :=
  let parsed := clean_response rawResponse
  match json_loads parsed with
  | none => .invalidJson parsed
  | some (Json.obj fields) =>
      let data_type := dict_get fields "data_type"
      let query_grade := dict_get fields "grade"
      let query_class := dict_get fields "class"
      let query_region := dict_get fields "region"
      let time_period := dict_get fields "time_period"
      match check_access admin_role query_grade query_class query_region with
      | .error e => .processingError e
      | .ok false => .message "Access denied: You don\x27t have permission to view this data."
      | .ok true =>
          match admin_scopes admin_role with
          | none => .processingError ("\x27" ++ admin_role ++ "\x27")
          | some scope =>
              match resolve load_data scope query_grade query_class query_region
                  data_type time_period now with
              | .error e => .processingError e
              | .ok r => r
  | some j => .processingError ("\x27" ++ pyTypeName j ++ "\x27 object has no attribute \x27get\x27")

/-! ## Explicit-state view of the resolver (for the purity claim)

`load_data` is an `@st.cache_data` frame: a call reads the cached frame and
every pandas operation the resolver performs (boolean-mask indexing, column
projection) builds a new frame, so the session state is returned as the
resolver found it. -/

/-- The session state visible to the resolver: the cached dataset. -/
structure Session where
  cache : List StudentRecord
deriving DecidableEq

/-- `load_data()` under `@st.cache_data`: read the cached frame. -/
def load_data_cached (s : Session) : List StudentRecord × Session := (s.cache, s)

/-- One resolver run against the session state. -/
def resolve_run (s : Session) (scope : Scope)
    (query_grade query_class query_region data_type time_period : Option Json)
    (now : Int) : Except String QueryResult × Session :=
  let (df, s1) := load_data_cached s
  (resolve df scope query_grade query_class query_region data_type time_period now, s1)

/-! ## Spec-side definitions -/

/-- A dataset row lying in a role's exact scope cell. -/
def InScope (scope : Scope) (r : StudentRecord) : Prop :=
  r.grade = scope.grade ∧ r.«class» = scope.«class» ∧ r.region = scope.region

instance (scope : Scope) (r : StudentRecord) : Decidable (InScope scope r) := by
  unfold InScope; infer_instance

/-- The grant condition exactly as the specification words it: a field
taken from the intent whenever it is present must equal the role's own
scope value (for the grade, a numeral or digit string denoting the scope
grade counts as equal); an absent field is substituted with the scope
value and hence matches. -/
def spec_grant (scope : Scope) (query_grade query_class query_region : Option Json) : Bool :=
  (match query_grade with
   | none => true
   | some (.num n) => n == scope.grade
   | some (.str s) => py_isdigit s && py_int s == scope.grade
   | some _ => false)
  && (match query_class with
      | none => true
      | some v => pyEqStr v scope.«class»)
  && (match query_region with
      | none => true
      | some v => pyEqStr v scope.region)

/-- The grant condition as the code actually implements it: a present grade
that is not an all-digit string is treated like an absent one. -/
def amended_grant (scope : Scope) (query_grade query_class query_region : Option Json) : Bool :=
  (match query_grade with
   | some (.str s) => if py_isdigit s then py_int s == scope.grade else true
   | _ => true)
  && (match query_class with
      | none => true
      | some v => pyEqStr v scope.«class»)
  && (match query_region with
      | none => true
      | some v => pyEqStr v scope.region)

/-! ## Helper lemmas -/

theorem pyEqStr_eq_true {v : Json} {s : String} : pyEqStr v s = true ↔ v = .str s := by
  cases v <;> simp [pyEqStr]

/-- A granted access decision pins every effective field to the role's own
scope value. -/
theorem granted_effective {role : String} {scope : Scope} {qg qc qr : Option Json}
    (hs : admin_scopes role = some scope)
    (hacc : check_access role qg qc qr = .ok true) :
    effective_grade_of scope qg = .ok scope.grade ∧
    (match qc with | none => Json.str scope.«class» | some v => v) = .str scope.«class» ∧
    (match qr with | none => Json.str scope.region | some v => v) = .str scope.region := by
  unfold check_access at hacc
  rw [hs] at hacc
  dsimp only at hacc
  cases heg : effective_grade_of scope qg with
  | error e => rw [heg] at hacc; cases hacc
  | ok g =>
      rw [heg] at hacc
      simp only [Except.ok.injEq] at hacc
      rw [Bool.and_eq_true, Bool.and_eq_true] at hacc
      obtain ⟨⟨h1, h2⟩, h4⟩ := hacc
      rw [beq_iff_eq] at h1
      exact ⟨congrArg Except.ok h1, pyEqStr_eq_true.mp h2, pyEqStr_eq_true.mp h4⟩

/-- Under a granted decision the resolver's row filter is exactly
membership in the role's scope cell. -/
theorem resolve_granted {df : List StudentRecord} {scope : Scope}
    {qg qc qr dt tp : Option Json} {now : Int}
    (heg : effective_grade_of scope qg = .ok scope.grade)
    (hec : (match qc with | none => Json.str scope.«class» | some v => v) = .str scope.«class»)
    (her : (match qr with | none => Json.str scope.region | some v => v) = .str scope.region) :
    resolve df scope qg qc qr dt tp now =
      .ok (branch_result (df.filter (fun r => decide (InScope scope r))) dt tp now) := by
  unfold resolve
  rw [heg, hec, her]
  dsimp only
  have hfun : ∀ r : StudentRecord,
      (r.grade == scope.grade && pyEqStr (.str scope.«class») r.«class»
        && pyEqStr (.str scope.region) r.region) = decide (InScope scope r) := by
    intro r
    rw [Bool.eq_iff_iff]
    simp only [Bool.and_eq_true, beq_iff_eq, pyEqStr, decide_eq_true_eq, InScope]
    constructor
    · rintro ⟨⟨h1, h2⟩, h3⟩; exact ⟨h1, h2.symm, h3.symm⟩
    · rintro ⟨h1, h2, h3⟩; exact ⟨⟨h1, h2.symm⟩, h3.symm⟩
  have hfilt :
      df.filter (fun r => r.grade == scope.grade && pyEqStr (.str scope.«class») r.«class»
        && pyEqStr (.str scope.region) r.region)
        = df.filter (fun r => decide (InScope scope r)) :=
    List.filter_congr (fun r _ => hfun r)
  rw [hfilt]

theorem pyEqStrOpt_eq_true {v : Option Json} {s : String} :
    pyEqStrOpt v s = true ↔ v = some (.str s) := by
  cases v with
  | none => simp [pyEqStrOpt]
  | some j => simp [pyEqStrOpt, pyEqStr_eq_true]

/-- The `performance` branch of the resolver, the `time_period` test left
open. -/
theorem branch_result_performance (fdf : List StudentRecord) (tp : Option Json) (now : Int) :
    branch_result fdf (some (Json.str "performance")) tp now =
      if pyEqStrOpt tp "last week" then
        (let result := (fdf.filter (fun r =>
            decide (now - 7 * usPerDay ≤ r.quiz_date)
              && decide (r.quiz_date ≤ now - 1 * usPerDay))).map
            (fun r => (r.student_name, r.quiz_score))
         if !result.isEmpty then .perfTable result
         else .message "No performance data for last week")
      else .message "Unable to process query" := rfl

/-- The `quizzes` branch of the resolver, the `time_period` test left
open. -/
theorem branch_result_quizzes (fdf : List StudentRecord) (tp : Option Json) (now : Int) :
    branch_result fdf (some (Json.str "quizzes")) tp now =
      if pyEqStrOpt tp "next week" then
        (let result := (fdf.filter (fun r =>
            decide (now + 1 * usPerDay ≤ r.upcoming_quiz)
              && decide (r.upcoming_quiz ≤ now + 7 * usPerDay))).map
            (fun r => (r.student_name, r.upcoming_quiz))
         if !result.isEmpty then .quizTable result
         else .message "No quizzes scheduled for next week")
      else .message "Unable to process query" := rfl

/-- C7: for the homework data_type the resolver returns the in-scope rows
with `homework_submitted` false, projected to the student name only, and
the message `All homework submitted` instead of an empty table when that
selection is empty. -/
theorem homework_selection (role : String) (scope : Scope) (df : List StudentRecord)
    (qg qc qr dt tp : Option Json) (now : Int)
    (hs : admin_scopes role = some scope)
    (hacc : check_access role qg qc qr = Except.ok true)
    (hdt : pyEqStrOpt dt "homework" = true) :
    resolve df scope qg qc qr dt tp now =
      .ok (let result := ((df.filter (fun r => decide (InScope scope r))).filter
              (fun r => r.homework_submitted == false)).map (fun r => r.student_name)
           if !result.isEmpty then .namesTable result
           else .message "All homework submitted") := by
  obtain ⟨heg, hec, her⟩ := granted_effective hs hacc
  obtain rfl := pyEqStrOpt_eq_true.mp hdt
  rw [resolve_granted heg hec her]
  rfl

/-- C7 witness: `grade_8_admin` asking for homework over the sample
dataset receives exactly the unsubmitted students of its own cell. -/
theorem homework_selection_witness :
    resolve load_data ⟨8, "A", "North"⟩ none none none (some (Json.str "homework")) none 0 =
      Except.ok (QueryResult.namesTable ["Bob Johnson", "Eve Davis"]) :=
  homework_selection "grade_8_admin" ⟨8, "A", "North"⟩ load_data none none none
    (some (Json.str "homework")) none 0 rfl rfl rfl

/-- C4 (amended): with data_type `performance` and time_period
`last week`, the result is exactly the in-scope rows whose `quiz_date`
timestamp lies in the closed window `[now - 7 days, now - 1 day]`,
projected to name and score.  Because stored quiz dates are midnights
while `now` carries the time of day, the midnight exactly 7 days before
today's midnight `mid` falls inside the window precisely when `now` is
itself that midnight, and today's midnight never does. -/
theorem performance_last_week_window (role : String) (scope : Scope)
    (df : List StudentRecord) (qg qc qr dt tp : Option Json) (now mid : Int)
    (hs : admin_scopes role = some scope)
    (hacc : check_access role qg qc qr = Except.ok true)
    (hdt : pyEqStrOpt dt "performance" = true)
    (htp : pyEqStrOpt tp "last week" = true)
    (hmid : mid ≤ now ∧ now < mid + usPerDay) :
    (resolve df scope qg qc qr dt tp now =
      .ok (let result := ((df.filter (fun r => decide (InScope scope r))).filter
              (fun r => decide (now - 7 * usPerDay ≤ r.quiz_date)
                && decide (r.quiz_date ≤ now - 1 * usPerDay))).map
              (fun r => (r.student_name, r.quiz_score))
           if !result.isEmpty then .perfTable result
           else .message "No performance data for last week")) ∧
    ((now - 7 * usPerDay ≤ mid - 7 * usPerDay ∧ mid - 7 * usPerDay ≤ now - 1 * usPerDay)
      ↔ now = mid) ∧
    ¬(now - 7 * usPerDay ≤ mid ∧ mid ≤ now - 1 * usPerDay) := by
  obtain ⟨heg, hec, her⟩ := granted_effective hs hacc
  obtain rfl := pyEqStrOpt_eq_true.mp hdt
  obtain rfl := pyEqStrOpt_eq_true.mp htp
  refine ⟨?_, ?_, ?_⟩
  · rw [resolve_granted heg hec her]
    rfl
  · simp only [usPerDay] at hmid ⊢
    omega
  · simp only [usPerDay] at hmid ⊢
    omega

/-- C4 witness: at `now` exactly midnight 2025-07-17 the quiz taken
2025-07-10 (7 days before) is inside the window, so grade-8 performance
over the sample data returns all four in-scope rows. -/
theorem performance_last_week_window_witness :
    (resolve load_data ⟨8, "A", "North"⟩ none none none (some (Json.str "performance"))
        (some (Json.str "last week")) (july 17) =
      Except.ok (QueryResult.perfTable
        [("Alice Smith", 85), ("Bob Johnson", 0), ("Eve Davis", 75), ("Grace Lee", 92)])) ∧
    ((july 17 - 7 * usPerDay ≤ july 17 - 7 * usPerDay
        ∧ july 17 - 7 * usPerDay ≤ july 17 - 1 * usPerDay) ↔ july 17 = july 17) ∧
    ¬(july 17 - 7 * usPerDay ≤ july 17 ∧ july 17 ≤ july 17 - 1 * usPerDay) :=
  performance_last_week_window "grade_8_admin" ⟨8, "A", "North"⟩ load_data
    none none none (some (Json.str "performance")) (some (Json.str "last week"))
    (july 17) (july 17) rfl rfl rfl rfl ⟨le_refl _, by decide⟩

/-- C4 counterexample: one hour past midnight on 2025-07-17, the claim
demands that Alice Smith's quiz of 2025-07-10 — in scope, dated exactly
7 days before today — be included, but the code's window starts at
`now - 7 days = 2025-07-10T01:00`, so her midnight-dated row is excluded
and the result holds only the two later quizzes. -/
theorem performance_seven_days_ago_excluded_cex :
    process_query "\x7b\"data_type\": \"performance\", \"time_period\": \"last week\"\x7d"
        "grade_8_admin" (july 17 + 3600000000) =
      QueryResult.perfTable [("Eve Davis", 75), ("Grace Lee", 92)] ∧
    (∃ r ∈ load_data, r.student_name = "Alice Smith" ∧ InScope ⟨8, "A", "North"⟩ r ∧
      r.quiz_date = july 10) ∧
    july 10 = july 17 - 7 * usPerDay ∧
    july 17 ≤ july 17 + 3600000000 ∧ july 17 + 3600000000 < july 17 + usPerDay ∧
    ("Alice Smith", 85) ∉ [("Eve Davis", 75), ("Grace Lee", 92)] := by
  refine ⟨rfl, by decide, by decide, by decide, by decide, by decide⟩

/-- C5: with data_type `quizzes` and time_period `next week`, the result is
exactly the in-scope rows whose `upcoming_quiz` timestamp lies in the
closed window `[now + 1 day, now + 7 days]`, projected to name and date
(empty match giving `No quizzes scheduled for next week`); the midnight
exactly 7 days after today's midnight `mid` always lies inside the window,
and today's midnight never does. -/
theorem quizzes_next_week_window (role : String) (scope : Scope)
    (df : List StudentRecord) (qg qc qr dt tp : Option Json) (now mid : Int)
    (hs : admin_scopes role = some scope)
    (hacc : check_access role qg qc qr = Except.ok true)
    (hdt : pyEqStrOpt dt "quizzes" = true)
    (htp : pyEqStrOpt tp "next week" = true)
    (hmid : mid ≤ now ∧ now < mid + usPerDay) :
    (resolve df scope qg qc qr dt tp now =
      .ok (let result := ((df.filter (fun r => decide (InScope scope r))).filter
              (fun r => decide (now + 1 * usPerDay ≤ r.upcoming_quiz)
                && decide (r.upcoming_quiz ≤ now + 7 * usPerDay))).map
              (fun r => (r.student_name, r.upcoming_quiz))
           if !result.isEmpty then .quizTable result
           else .message "No quizzes scheduled for next week")) ∧
    (now + 1 * usPerDay ≤ mid + 7 * usPerDay ∧ mid + 7 * usPerDay ≤ now + 7 * usPerDay) ∧
    ¬(now + 1 * usPerDay ≤ mid) := by
  obtain ⟨heg, hec, her⟩ := granted_effective hs hacc
  obtain rfl := pyEqStrOpt_eq_true.mp hdt
  obtain rfl := pyEqStrOpt_eq_true.mp htp
  refine ⟨?_, ?_, ?_⟩
  · rw [resolve_granted heg hec her]
    rfl
  · simp only [usPerDay] at hmid ⊢
    omega
  · simp only [usPerDay] at hmid ⊢
    omega

/-- C5 witness: one hour past midnight on 2025-07-17, grade-8 quizzes for
next week over the sample data include the quiz dated exactly 7 days ahead
(2025-07-24, Grace Lee) and exclude nothing scheduled today. -/
theorem quizzes_next_week_window_witness :
    (resolve load_data ⟨8, "A", "North"⟩ none none none (some (Json.str "quizzes"))
        (some (Json.str "next week")) (july 17 + 3600000000) =
      Except.ok (QueryResult.quizTable
        [("Alice Smith", july 20), ("Bob Johnson", july 20),
         ("Eve Davis", july 22), ("Grace Lee", july 24)])) ∧
    ((july 17 + 3600000000) + 1 * usPerDay ≤ july 17 + 7 * usPerDay
      ∧ july 17 + 7 * usPerDay ≤ (july 17 + 3600000000) + 7 * usPerDay) ∧
    ¬((july 17 + 3600000000) + 1 * usPerDay ≤ july 17) := by
  have h := quizzes_next_week_window "grade_8_admin" ⟨8, "A", "North"⟩ load_data
    none none none (some (Json.str "quizzes")) (some (Json.str "next week"))
    (july 17 + 3600000000) (july 17) rfl rfl rfl rfl ⟨by decide, by decide⟩
  exact ⟨h.1, h.2.1, h.2.2⟩

/-- C6 (amended): for the performance data_type, every `time_period` other
than `last week` (the absent one included) falls through to the generic
message `Unable to process query`, while an empty match inside the window
yields exactly `No performance data for last week`. -/
theorem performance_other_period_unable (role : String) (scope : Scope)
    (df : List StudentRecord) (qg qc qr dt tp : Option Json) (now : Int)
    (hs : admin_scopes role = some scope)
    (hacc : check_access role qg qc qr = Except.ok true)
    (hdt : pyEqStrOpt dt "performance" = true) :
    (pyEqStrOpt tp "last week" = false →
      resolve df scope qg qc qr dt tp now = .ok (.message "Unable to process query")) ∧
    (pyEqStrOpt tp "last week" = true →
      ((df.filter (fun r => decide (InScope scope r))).filter
          (fun r => decide (now - 7 * usPerDay ≤ r.quiz_date)
            && decide (r.quiz_date ≤ now - 1 * usPerDay))).map
          (fun r => (r.student_name, r.quiz_score)) = [] →
      resolve df scope qg qc qr dt tp now =
        .ok (.message "No performance data for last week")) := by
  obtain ⟨heg, hec, her⟩ := granted_effective hs hacc
  obtain rfl := pyEqStrOpt_eq_true.mp hdt
  constructor
  · intro htp
    rw [resolve_granted heg hec her, branch_result_performance, htp]
    simp
  · intro htp hmap
    rw [resolve_granted heg hec her, branch_result_performance, htp]
    simp only [hmap]
    simp

/-- C6 witness: over the sample data, `grade_8_admin` asking for
performance with no time period gets `Unable to process query`, and asking
for last week at 2025-07-01T00:00 (when no quiz falls in the window) gets
`No performance data for last week`. -/
theorem performance_other_period_unable_witness :
    resolve load_data ⟨8, "A", "North"⟩ none none none (some (Json.str "performance"))
        none 0 = Except.ok (QueryResult.message "Unable to process query") ∧
    resolve load_data ⟨8, "A", "North"⟩ none none none (some (Json.str "performance"))
        (some (Json.str "last week")) 0 =
      Except.ok (QueryResult.message "No performance data for last week") :=
  ⟨(performance_other_period_unable "grade_8_admin" ⟨8, "A", "North"⟩ load_data
      none none none (some (Json.str "performance")) none 0 rfl rfl rfl).1 rfl,
   (performance_other_period_unable "grade_8_admin" ⟨8, "A", "North"⟩ load_data
      none none none (some (Json.str "performance")) (some (Json.str "last week")) 0
      rfl rfl rfl).2 rfl (by decide)⟩

/-- C6 counterexample: an absent time_period yields the generic message
`Unable to process query`, which is not a "no performance data" message in
any reading — it neither contains that phrase nor equals the empty-window
message. -/
theorem performance_other_period_message_cex :
    process_query "\x7b\"data_type\": \"performance\"\x7d" "grade_8_admin" 0 =
      QueryResult.message "Unable to process query" ∧
    ¬ ("no performance data".data <:+: "Unable to process query".data) ∧
    "Unable to process query" ≠ "No performance data for last week" := by
  refine ⟨rfl, by decide, by decide⟩

/-- C1 counterexample: the intent grade `"eight"` is present and differs
from `grade_8_admin`'s scope grade 8, so the claim demands denial, yet
`check_access` grants — the non-digit string falls back to the role's own
grade instead of being compared. -/
theorem check_access_nondigit_grade_grants_cex :
    check_access "grade_8_admin" (some (Json.str "eight")) none none = Except.ok true ∧
    admin_scopes "grade_8_admin" = some ⟨8, "A", "North"⟩ ∧
    spec_grant ⟨8, "A", "North"⟩ (some (Json.str "eight")) none none = false :=
  ⟨rfl, rfl, rfl⟩

/-- C1 (amended): for every role and every intent whose grade field is
absent or a string, `check_access` grants exactly per `amended_grant`: a
grade present as an all-digit string must denote the scope grade, a
present non-digit-string grade is substituted with the role's own grade
like an absent one, class and region present fields must equal the scope
exactly; a role absent from the Scope Registry is always denied. -/
theorem check_access_characterization (role : String) (qg qc qr : Option Json) :
    (admin_scopes role = none → check_access role qg qc qr = Except.ok false) ∧
    (∀ scope : Scope, admin_scopes role = some scope →
      (qg = none ∨ ∃ s : String, qg = some (Json.str s)) →
      check_access role qg qc qr = Except.ok (amended_grant scope qg qc qr)) := by
  constructor
  · intro h
    unfold check_access
    rw [h]
  · rintro scope hs (rfl | ⟨s, rfl⟩) <;>
      unfold check_access amended_grant effective_grade_of <;> rw [hs] <;> dsimp only <;>
      cases qc <;> cases qr
    case inl.none.none | inl.none.some | inl.some.none | inl.some.some => simp [pyEqStr]
    all_goals by_cases hd : py_isdigit s <;> simp [hd, pyEqStr, Bool.and_assoc]

/-- C1 witness: the amended characterization evaluated at an unknown role,
at a granted digit-string intent and at a denied one. -/
theorem check_access_characterization_witness :
    check_access "nobody" (some (Json.str "8")) none none = Except.ok false ∧
    check_access "grade_8_admin" (some (Json.str "8")) none none = Except.ok true ∧
    check_access "grade_9_admin" (some (Json.str "8")) none none = Except.ok false ∧
    amended_grant ⟨9, "B", "South"⟩ (some (Json.str "8")) none none = false := by
  refine ⟨(check_access_characterization "nobody" (some (Json.str "8")) none none).1 rfl,
    ?_, ?_, by decide⟩
  · have h := (check_access_characterization "grade_8_admin"
      (some (Json.str "8")) none none).2 ⟨8, "A", "North"⟩ rfl (Or.inr ⟨"8", rfl⟩)
    rw [h]
    rfl
  · have h := (check_access_characterization "grade_9_admin"
      (some (Json.str "8")) none none).2 ⟨9, "B", "South"⟩ rfl (Or.inr ⟨"8", rfl⟩)
    rw [h]
    rfl

/-- C9: a present grade that is not an all-digit string is handled exactly
like an absent grade — `check_access` substitutes the role's own scope
grade — so such an intent can still be granted. -/
theorem check_access_nondigit_grade_as_absent (role : String) (s : String)
    (qc qr : Option Json) (h : py_isdigit s = false) :
    check_access role (some (Json.str s)) qc qr = check_access role none qc qr := by
  unfold check_access effective_grade_of
  cases admin_scopes role <;> simp [h]

/-- C9 witness: `"eight"` is not a digit string, is treated as absent, and
the resulting intent is granted for `grade_8_admin`. -/
theorem check_access_nondigit_grade_as_absent_witness :
    py_isdigit "eight" = false ∧
    check_access "grade_8_admin" (some (Json.str "eight")) none none =
      check_access "grade_8_admin" none none none ∧
    check_access "grade_8_admin" none none none = Except.ok true :=
  ⟨rfl, check_access_nondigit_grade_as_absent "grade_8_admin" "eight" none none rfl, rfl⟩

/-- C8: the resolver is deterministic and leaves the session state
untouched — running it twice on identical inputs returns the state as
found and the same result both times.  (In this embedding every pandas
operation the resolver performs is value-producing, so purity is
structural: the theorem records that the translation has no write to the
cached dataset.) -/
theorem resolve_run_pure (s : Session) (scope : Scope)
    (qg qc qr dt tp : Option Json) (now : Int) :
    (resolve_run s scope qg qc qr dt tp now).2 = s ∧
    (resolve_run ((resolve_run s scope qg qc qr dt tp now).2) scope qg qc qr dt tp now).1 =
      (resolve_run s scope qg qc qr dt tp now).1 :=
  ⟨rfl, rfl⟩

/-- C10 counterexample: a JSON `null` grade is a non-string value, yet
`dict.get` surfaces it as Python `None`, so no `AttributeError` is raised:
the query proceeds to a filtered result instead of the claimed generic
error. -/
theorem nonstring_grade_null_cex :
    json_loads (clean_response "\x7b\"grade\": null, \"data_type\": \"homework\"\x7d") =
      some (Json.obj [("grade", Json.null), ("data_type", Json.str "homework")]) ∧
    process_query "\x7b\"grade\": null, \"data_type\": \"homework\"\x7d" "grade_8_admin" 0 =
      QueryResult.namesTable ["Bob Johnson", "Eve Davis"] :=
  ⟨rfl, rfl⟩

/-- C10 (amended): a grade field present with a non-string, non-null value
makes `check_access` raise `AttributeError` on `.isdigit()`, and
`process_query` surfaces the generic processing error for it (a `null`
grade is instead read back as `None` and treated as absent). -/
theorem nonstring_grade_generic_error (raw role : String) (now : Int)
    (fields : List (String × Json)) (v : Json) (scope : Scope)
    (hp : json_loads (clean_response raw) = some (Json.obj fields))
    (hv : dict_get fields "grade" = some v)
    (hns : ∀ s : String, v ≠ Json.str s)
    (hs : admin_scopes role = some scope) :
    process_query raw role now =
      QueryResult.processingError ("\x27" ++ pyTypeName v ++ "\x27 object has no attribute \x27isdigit\x27") := by
  unfold process_query
  dsimp only
  rw [hp]
  dsimp only
  rw [hv]
  unfold check_access effective_grade_of
  rw [hs]
  dsimp only
  cases v with
  | str s => exact absurd rfl (hns s)
  | null => rfl
  | bool b => rfl
  | num n => rfl
  | arr l => rfl
  | obj o => rfl

/-- C10 witness: the extractor answering only a non-string grade. -/
theorem nonstring_grade_generic_error_witness :
    json_loads (clean_response "\x7b\"grade\": 8\x7d") = some (Json.obj [("grade", Json.num 8)]) ∧
    process_query "\x7b\"grade\": 8\x7d" "grade_8_admin" 0 =
      QueryResult.processingError "\x27int\x27 object has no attribute \x27isdigit\x27" := by
  refine ⟨rfl, ?_⟩
  exact nonstring_grade_generic_error "\x7b\"grade\": 8\x7d" "grade_8_admin" 0
    [("grade", Json.num 8)] (Json.num 8) ⟨8, "A", "North"⟩ rfl rfl
    (fun s h => Json.noConfusion h) rfl

/-- C3 counterexample: the `JSONDecodeError` frame carries the cleaned
text, not the raw response (`"Sure! ..."` has been cut down to the brace
span before the failing parse); and a response with no JSON object whose
cleaned text is nonetheless valid JSON (`"3"`) takes the generic
`.get`-`AttributeError` path rather than the `InvalidIntentFormat` one. -/
theorem invalid_intent_raw_text_cex :
    process_query "Sure! \x7boops\x7d" "grade_8_admin" 0 =
      QueryResult.invalidJson "\x7boops\x7d" ∧
    clean_response "Sure! \x7boops\x7d" ≠ "Sure! \x7boops\x7d" ∧
    braceSpan "3" = none ∧
    process_query "3" "grade_8_admin" 0 =
      QueryResult.processingError "\x27int\x27 object has no attribute \x27get\x27" := by
  refine ⟨rfl, by decide, rfl, rfl⟩

/-- C3 (amended): whenever the cleaned extractor output (the brace span if
one exists, else the stripped text with `undefined` removed) fails to
parse as JSON, `process_query` returns the `InvalidIntentFormat` error
carrying that cleaned text — and, the embedding being total, no input
propagates an exception past the handlers. -/
theorem invalid_intent_format (raw role : String) (now : Int)
    (h : json_loads (clean_response raw) = none) :
    process_query raw role now = QueryResult.invalidJson (clean_response raw) := by
  unfold process_query
  dsimp only
  rw [h]

/-- C3 witness: prose around an unparseable brace span. -/
theorem invalid_intent_format_witness :
    json_loads (clean_response "Sure! here it is \x7bnot json\x7d ok") = none ∧
    process_query "Sure! here it is \x7bnot json\x7d ok" "grade_9_admin" 5 =
      QueryResult.invalidJson "\x7bnot json\x7d" := by
  refine ⟨rfl, ?_⟩
  have h := invalid_intent_format "Sure! here it is \x7bnot json\x7d ok" "grade_9_admin" 5 rfl
  rw [h]
  rfl

/-- Any table the resolver produces under a granted decision draws every
one of its rows from a dataset row inside the role's scope cell. -/
theorem resolve_table_origin {df : List StudentRecord} {scope : Scope}
    {qg qc qr dt tp : Option Json} {now : Int} {res : QueryResult}
    (heg : effective_grade_of scope qg = .ok scope.grade)
    (hec : (match qc with | none => Json.str scope.«class» | some v => v) = .str scope.«class»)
    (her : (match qr with | none => Json.str scope.region | some v => v) = .str scope.region)
    (hres : resolve df scope qg qc qr dt tp now = .ok res) :
    (∀ ns, res = .namesTable ns →
      ∀ n ∈ ns, ∃ r ∈ df, InScope scope r ∧ r.student_name = n) ∧
    (∀ ps, res = .perfTable ps →
      ∀ p ∈ ps, ∃ r ∈ df, InScope scope r ∧ (r.student_name, r.quiz_score) = p) ∧
    (∀ qs, res = .quizTable qs →
      ∀ p ∈ qs, ∃ r ∈ df, InScope scope r ∧ (r.student_name, r.upcoming_quiz) = p) := by
  rw [resolve_granted heg hec her] at hres
  have hmem : ∀ (p : StudentRecord → Bool) (r : StudentRecord),
      r ∈ (df.filter (fun r => decide (InScope scope r))).filter p →
      r ∈ df ∧ InScope scope r := by
    intro p r hr
    have h1 := (List.mem_filter.mp hr).1
    exact ⟨(List.mem_filter.mp h1).1, of_decide_eq_true (List.mem_filter.mp h1).2⟩
  obtain rfl : branch_result (df.filter (fun r => decide (InScope scope r))) dt tp now = res := by
    injection hres
  refine ⟨?_, ?_, ?_⟩
  all_goals intro xs h
  all_goals unfold branch_result at h
  all_goals dsimp only at h
  all_goals repeat' split at h
  all_goals try contradiction
  all_goals simp only [QueryResult.namesTable.injEq, QueryResult.perfTable.injEq,
    QueryResult.quizTable.injEq] at h
  all_goals subst h
  all_goals intro n hn
  all_goals obtain ⟨r, hrf, rfl⟩ := List.mem_map.mp hn
  all_goals obtain ⟨hdf, hsc⟩ := hmem _ _ hrf
  all_goals exact ⟨r, hdf, hsc, rfl⟩

/-- Peeling `process_query`: whatever result it returns, if that result is
a table then it was produced by a granted `resolve` run, and every row
originates in a dataset row of the role's scope cell. -/
theorem process_query_table_origin (raw role : String) (now : Int) (scope : Scope)
    (res : QueryResult)
    (hs : admin_scopes role = some scope)
    (h : process_query raw role now = res) :
    (∀ ns, res = .namesTable ns →
      ∀ n ∈ ns, ∃ r ∈ load_data, InScope scope r ∧ r.student_name = n) ∧
    (∀ ps, res = .perfTable ps →
      ∀ p ∈ ps, ∃ r ∈ load_data, InScope scope r ∧ (r.student_name, r.quiz_score) = p) ∧
    (∀ qs, res = .quizTable qs →
      ∀ p ∈ qs, ∃ r ∈ load_data, InScope scope r ∧ (r.student_name, r.upcoming_quiz) = p) := by
  unfold process_query at h
  dsimp only at h
  cases hj : json_loads (clean_response raw) with
  | none =>
      rw [hj] at h
      dsimp only at h
      subst h
      exact ⟨fun _ hx => (nomatch hx), fun _ hx => (nomatch hx), fun _ hx => (nomatch hx)⟩
  | some j =>
      rw [hj] at h
      cases j with
      | obj fields =>
          dsimp only at h
          cases hacc : check_access role (dict_get fields "grade")
              (dict_get fields "class") (dict_get fields "region") with
          | error e =>
              rw [hacc] at h
              dsimp only at h
              subst h
              exact ⟨fun _ hx => (nomatch hx), fun _ hx => (nomatch hx), fun _ hx => (nomatch hx)⟩
          | ok b =>
              rw [hacc] at h
              cases b with
              | false =>
                  dsimp only at h
                  subst h
                  exact ⟨fun _ hx => (nomatch hx), fun _ hx => (nomatch hx), fun _ hx => (nomatch hx)⟩
              | true =>
                  rw [hs] at h
                  dsimp only at h
                  cases hres : resolve load_data scope (dict_get fields "grade")
                      (dict_get fields "class") (dict_get fields "region")
                      (dict_get fields "data_type") (dict_get fields "time_period") now with
                  | error e =>
                      rw [hres] at h
                      dsimp only at h
                      subst h
                      exact ⟨fun _ hx => (nomatch hx), fun _ hx => (nomatch hx),
                        fun _ hx => (nomatch hx)⟩
                  | ok r =>
                      rw [hres] at h
                      dsimp only at h
                      subst h
                      obtain ⟨heg, hec, her⟩ := granted_effective hs hacc
                      exact resolve_table_origin heg hec her hres
      | null =>
          dsimp only at h
          subst h
          exact ⟨fun _ hx => (nomatch hx), fun _ hx => (nomatch hx), fun _ hx => (nomatch hx)⟩
      | bool b =>
          dsimp only at h
          subst h
          exact ⟨fun _ hx => (nomatch hx), fun _ hx => (nomatch hx), fun _ hx => (nomatch hx)⟩
      | num n =>
          dsimp only at h
          subst h
          exact ⟨fun _ hx => (nomatch hx), fun _ hx => (nomatch hx), fun _ hx => (nomatch hx)⟩
      | str s =>
          dsimp only at h
          subst h
          exact ⟨fun _ hx => (nomatch hx), fun _ hx => (nomatch hx), fun _ hx => (nomatch hx)⟩
      | arr l =>
          dsimp only at h
          subst h
          exact ⟨fun _ hx => (nomatch hx), fun _ hx => (nomatch hx), fun _ hx => (nomatch hx)⟩

/-- C2: whenever `process_query` produces a tabular (non-message) result
for a role, every row of that table is the projection of a dataset row
whose grade, class and region equal the role's own scope triple. -/
theorem process_query_rows_within_scope (raw role : String) (now : Int) (scope : Scope)
    (hs : admin_scopes role = some scope) :
    (∀ ns, process_query raw role now = .namesTable ns →
      ∀ n ∈ ns, ∃ r ∈ load_data, InScope scope r ∧ r.student_name = n) ∧
    (∀ ps, process_query raw role now = .perfTable ps →
      ∀ p ∈ ps, ∃ r ∈ load_data, InScope scope r ∧ (r.student_name, r.quiz_score) = p) ∧
    (∀ qs, process_query raw role now = .quizTable qs →
      ∀ p ∈ qs, ∃ r ∈ load_data, InScope scope r ∧ (r.student_name, r.upcoming_quiz) = p) := by
  refine ⟨fun ns hn => ?_, fun ps hp => ?_, fun qs hq => ?_⟩
  · exact (process_query_table_origin raw role now scope _ hs hn).1 ns rfl
  · exact (process_query_table_origin raw role now scope _ hs hp).2.1 ps rfl
  · exact (process_query_table_origin raw role now scope _ hs hq).2.2 qs rfl

/-- C2 witness: the grade-8 homework query returns Bob Johnson, and he is
indeed a grade-8/A/North dataset row. -/
theorem process_query_rows_within_scope_witness :
    ∃ r ∈ load_data, InScope ⟨8, "A", "North"⟩ r ∧ r.student_name = "Bob Johnson" := by
  have h := (process_query_rows_within_scope "\x7b\"data_type\": \"homework\"\x7d"
    "grade_8_admin" 0 ⟨8, "A", "North"⟩ rfl).1
  exact h ["Bob Johnson", "Eve Davis"] rfl "Bob Johnson" (by decide)
